import Mathlib

/-!
Shallow embedding of the outline queueing stage (`src/draw.rs`):
`queue_outline_stencil_mesh` and `queue_outline_volume_mesh`, the two
per-frame systems that turn per-entity outline state plus per-view state
into phase entries.  Types that live outside `src/` (pipeline key, uniform
records, render-layer masks) are modelled from the spec, as noted on each
definition.
-/

namespace BevyModOutline

/-- Modelled from the spec: an IEEE-style f32 scalar, embedded as a rational
value plus the non-finite values; comparisons follow IEEE semantics (any
comparison involving NaN is false, -0.0 and 0.0 coincide as the rational 0).
The real f32 type is not in `src/`. -/
inductive F32 where
  | fin (q : ℚ)
  | inf
  | neginf
  | nan
deriving DecidableEq

/-- IEEE `<` on the embedded scalars: ordered on finite values and
infinities, false whenever NaN is involved. -/
def F32.lt : F32 → F32 → Bool
  | .fin a, .fin b => decide (a < b)
  | .fin _, .inf => true
  | .neginf, .fin _ => true
  | .neginf, .inf => true
  | _, _ => false

/-- IEEE `==` on the embedded scalars: equality on finite values and
infinities, false whenever NaN is involved. -/
def F32.beq : F32 → F32 → Bool
  | .fin a, .fin b => decide (a = b)
  | .inf, .inf => true
  | .neginf, .neginf => true
  | _, _ => false

/-- A world-space position (the only vector use the queuers make). -/
structure Vec3 where
  x : F32
  y : F32
  z : F32
deriving DecidableEq

/-- Modelled from the spec: the queuers only ever build a `Mat4` through
`Mat4.from_translation` and hand it to the view's rangefinder, so only the
translation component is represented. -/
structure Mat4 where
  translation : Vec3
deriving DecidableEq

/-- `Mat4::from_translation` as used at `draw.rs` lines 82 and 168. -/
def Mat4.from_translation (v : Vec3) : Mat4 := ⟨v⟩

/-- Modelled from the spec: a render-layer mask is a bitmask-like set over
32 layers (`RenderLayers` itself is not in `src/`); two masks intersect iff
they share a set bit. -/
structure RenderLayers where
  mask : Nat
deriving DecidableEq

/-- Modelled from the spec: the mask used when a view has no
`RenderLayers` component "matches everything", i.e. all 32 layers set. -/
def RenderLayers.default : RenderLayers := ⟨2 ^ 32 - 1⟩

/-- Two masks intersect iff their bitwise AND is nonzero. -/
def RenderLayers.intersects (a b : RenderLayers) : Bool :=
  decide (a.mask &&& b.mask ≠ 0)

/-- The per-entity outline mask wraps the same bitmask type. -/
abbrev OutlineRenderLayers := RenderLayers

/-- Modelled from the spec: the depth-mode enum with its `Invalid`
sentinel ("not yet propagated"); the other modes are opaque to queueing. -/
inductive DepthMode where
  | Invalid
  | Flat
  | Real
deriving DecidableEq

/-- Modelled from the spec: which pass a specialized pipeline targets. -/
inductive PassType where
  | Stencil
  | Opaque
  | Transparent
deriving DecidableEq

/-- Modelled from the spec: the pipeline specialization key, an immutable
value object with one field per specialization axis; equality is
field-wise.  Primitive topology is kept opaque as a numeric code. -/
structure PipelineKey where
  msaa_samples : Nat
  pass_type : PassType
  primitive_topology : Nat
  depth_mode : DepthMode
  offset_zero : Bool
  hdr_format : Bool
  opengl_workaround : Bool
deriving DecidableEq

/-- Modelled from the spec: `PipelineKey::new()`, the neutral key every
builder chain starts from. -/
def PipelineKey.new : PipelineKey :=
  { msaa_samples := 1, pass_type := PassType.Stencil, primitive_topology := 0,
    depth_mode := DepthMode.Invalid, offset_zero := false, hdr_format := false,
    opengl_workaround := false }

/-- Builder update of the MSAA sample-count axis. -/
def PipelineKey.with_msaa (k : PipelineKey) (samples : Nat) : PipelineKey :=
  { k with msaa_samples := samples }

/-- Builder update of the pass-type axis. -/
def PipelineKey.with_pass_type (k : PipelineKey) (t : PassType) : PipelineKey :=
  { k with pass_type := t }

/-- Builder update of the primitive-topology axis. -/
def PipelineKey.with_primitive_topology (k : PipelineKey) (t : Nat) : PipelineKey :=
  { k with primitive_topology := t }

/-- Builder update of the depth-mode axis. -/
def PipelineKey.with_depth_mode (k : PipelineKey) (d : DepthMode) : PipelineKey :=
  { k with depth_mode := d }

/-- Builder update of the offset-is-zero axis. -/
def PipelineKey.with_offset_zero (k : PipelineKey) (b : Bool) : PipelineKey :=
  { k with offset_zero := b }

/-- Builder update of the HDR-target axis. -/
def PipelineKey.with_hdr_format (k : PipelineKey) (b : Bool) : PipelineKey :=
  { k with hdr_format := b }

/-- Builder update of the backend-workaround axis. -/
def PipelineKey.with_opengl_workaround (k : PipelineKey) (b : Bool) : PipelineKey :=
  { k with opengl_workaround := b }

/-- Modelled from the spec: the per-entity stencil uniform; queueing reads
its world-space origin and its offset scalar. -/
structure OutlineStencilUniform where
  origin : Vec3
  offset : F32
deriving DecidableEq

/-- Modelled from the spec: the per-entity stencil flags carrying the
depth mode. -/
structure OutlineStencilFlags where
  depth_mode : DepthMode
deriving DecidableEq

/-- Modelled from the spec: the per-entity volume uniform; queueing reads
its world-space origin and its offset scalar. -/
structure OutlineVolumeUniform where
  origin : Vec3
  offset : F32
deriving DecidableEq

/-- Modelled from the spec: the per-entity volume flags carrying the depth
mode. -/
structure OutlineVolumeFlags where
  depth_mode : DepthMode
deriving DecidableEq

/-- Modelled from the spec: the per-entity fragment uniform carrying an
RGBA colour; queueing reads component 3 (alpha). -/
structure OutlineFragmentUniform where
  colour : Fin 4 → F32

/-- Modelled from the spec: the resolved GPU mesh, exposing primitive
topology and vertex layout (both opaque numeric codes here). -/
structure Mesh where
  primitive_topology : Nat
  layout : Nat
deriving DecidableEq

/-- The per-view extracted state the queuers read: the HDR flag and the
3-d rangefinder, a function from a (translation) transform to a sort
distance. -/
structure ExtractedView where
  hdr : Bool
  rangefinder3d : Mat4 → F32

/-- One row of the stencil queuer's entity query
(`draw.rs` lines 38-44): entity id, mesh handle, uniform, flags, mask. -/
structure StencilEntity where
  entity : Nat
  mesh_handle : Nat
  stencil_uniform : OutlineStencilUniform
  stencil_flags : OutlineStencilFlags
  outline_mask : OutlineRenderLayers

/-- One row of the volume queuer's entity query
(`draw.rs` lines 113-120). -/
structure VolumeEntity where
  entity : Nat
  mesh_handle : Nat
  volume_uniform : OutlineVolumeUniform
  volume_flags : OutlineVolumeFlags
  fragment_uniform : OutlineFragmentUniform
  outline_mask : OutlineRenderLayers

/-- A `StencilOutline` phase entry (`draw.rs` lines 83-88). -/
structure StencilOutline where
  entity : Nat
  pipeline : Nat
  draw_function : Nat
  distance : F32
deriving DecidableEq

/-- An `OpaqueOutline` phase entry (`draw.rs` lines 177-182). -/
structure OpaqueOutline where
  entity : Nat
  pipeline : Nat
  draw_function : Nat
  distance : F32
deriving DecidableEq

/-- A `TransparentOutline` phase entry (`draw.rs` lines 170-175). -/
structure TransparentOutline where
  entity : Nat
  pipeline : Nat
  draw_function : Nat
  distance : F32
deriving DecidableEq

/-- The frame-global inputs both queuers read: the draw-function registry
lookups (`get_id`, `none` = not registered), the MSAA sample count, whether
the adapter backend is GL, the mesh-asset table, and the pipeline
specializer (`none` = specialization failure). -/
structure QueueInputs where
  stencil_draw_functions : Option Nat
  opaque_draw_functions : Option Nat
  transparent_draw_functions : Option Nat
  msaa_samples : Nat
  backend_is_gl : Bool
  render_meshes : Nat → Option Mesh
  specialize : PipelineKey → Nat → Option Nat

/-- The stencil queuer's base key (`draw.rs` lines 56-59). -/
def stencil_base_key (inp : QueueInputs) : PipelineKey :=
  ((PipelineKey.new.with_msaa inp.msaa_samples).with_pass_type
    PassType.Stencil).with_opengl_workaround inp.backend_is_gl

/-- The volume queuer's base key (`draw.rs` lines 137-139); pass type and
HDR are refined per entity. -/
def volume_base_key (inp : QueueInputs) : PipelineKey :=
  (PipelineKey.new.with_msaa inp.msaa_samples).with_opengl_workaround
    inp.backend_is_gl

/-- The refined stencil key for one entity (`draw.rs` lines 74-77). -/
def stencil_entity_key (base : PipelineKey) (mesh : Mesh)
    (flags : OutlineStencilFlags) (uniform : OutlineStencilUniform) : PipelineKey :=
  ((base.with_primitive_topology mesh.primitive_topology).with_depth_mode
    flags.depth_mode).with_offset_zero (F32.beq uniform.offset (F32.fin 0))

/-- The volume queuer's transparency classification
(`draw.rs` line 154): `fragment_uniform.colour[3] < 1.0`. -/
def volume_transparent (f : OutlineFragmentUniform) : Bool :=
  F32.lt (f.colour 3) (F32.fin 1)

/-- The refined volume key for one entity (`draw.rs` lines 155-164). -/
def volume_entity_key (base : PipelineKey) (mesh : Mesh)
    (flags : OutlineVolumeFlags) (uniform : OutlineVolumeUniform)
    (transparent : Bool) (hdr : Bool) : PipelineKey :=
  ((((base.with_primitive_topology mesh.primitive_topology).with_pass_type
    (if transparent then PassType.Transparent else PassType.Opaque)).with_depth_mode
    flags.depth_mode).with_offset_zero
    (F32.beq uniform.offset (F32.fin 0))).with_hdr_format hdr

/-- Outcome of the stencil loop body for one entity: skipped by a filter,
aborted by a specialization panic, or one phase entry added. -/
inductive StencilStep where
  | skip
  | abortRun
  | add (item : StencilOutline)

/-- The stencil loop body (`draw.rs` lines 64-89) for one entity. -/
def stencil_step (inp : QueueInputs) (draw_stencil : Nat)
    (view_mask : RenderLayers) (view : ExtractedView) (e : StencilEntity) :
    StencilStep :=
  if ¬ view_mask.intersects e.outline_mask then .skip
  else if e.stencil_flags.depth_mode = DepthMode.Invalid then .skip
  else
    match inp.render_meshes e.mesh_handle with
    | none => .skip
    | some mesh =>
      match inp.specialize
        (stencil_entity_key (stencil_base_key inp) mesh e.stencil_flags
          e.stencil_uniform) mesh.layout with
      | none => .abortRun
      | some pipeline =>
        .add { entity := e.entity, pipeline := pipeline,
               draw_function := draw_stencil,
               distance := view.rangefinder3d
                 (Mat4.from_translation e.stencil_uniform.origin) }

/-- The stencil queuer's entity loop for one view.  `Except.error` models
the in-loop `unwrap` panic: the payload holds the entries already in the
phase when the panic fired, and nothing after the failure is appended. -/
def queue_stencil_entities (inp : QueueInputs) (draw_stencil : Nat)
    (view_mask : RenderLayers) (view : ExtractedView) :
    List StencilEntity → Except (List StencilOutline) (List StencilOutline)
  | [] => .ok []
  | e :: rest =>
    match stencil_step inp draw_stencil view_mask view e with
    | .skip => queue_stencil_entities inp draw_stencil view_mask view rest
    | .abortRun => .error []
    | .add item =>
      match queue_stencil_entities inp draw_stencil view_mask view rest with
      | .ok items => .ok (item :: items)
      | .error items => .error (item :: items)

/-- `queue_outline_stencil_mesh` (`draw.rs` lines 30-92) restricted to one
view: resolve the draw function (panic if unregistered), build the base
key, default the view mask, and run the entity loop. -/
def queue_outline_stencil_mesh (inp : QueueInputs) (view : ExtractedView)
    (view_mask : Option RenderLayers) (entities : List StencilEntity) :
    Except (List StencilOutline) (List StencilOutline) :=
  match inp.stencil_draw_functions with
  | none => .error []
  | some draw_stencil =>
    queue_stencil_entities inp draw_stencil
      (view_mask.getD RenderLayers.default) view entities

/-- Outcome of the volume loop body for one entity. -/
inductive VolumeStep where
  | skip
  | abortRun
  | addOpaque (item : OpaqueOutline)
  | addTransparent (item : TransparentOutline)

/-- The volume loop body (`draw.rs` lines 144-184) for one entity. -/
def volume_step (inp : QueueInputs) (draw_opaque_outline : Nat)
    (draw_transparent_outline : Nat) (view_mask : RenderLayers)
    (view : ExtractedView) (e : VolumeEntity) : VolumeStep :=
  if ¬ view_mask.intersects e.outline_mask then .skip
  else if e.volume_flags.depth_mode = DepthMode.Invalid then .skip
  else
    match inp.render_meshes e.mesh_handle with
    | none => .skip
    | some mesh =>
      let transparent := volume_transparent e.fragment_uniform
      match inp.specialize
        (volume_entity_key (volume_base_key inp) mesh e.volume_flags
          e.volume_uniform transparent view.hdr) mesh.layout with
      | none => .abortRun
      | some pipeline =>
        let distance := view.rangefinder3d
          (Mat4.from_translation e.volume_uniform.origin)
        if transparent then
          .addTransparent
            { entity := e.entity, pipeline := pipeline,
              draw_function := draw_transparent_outline, distance := distance }
        else
          .addOpaque
            { entity := e.entity, pipeline := pipeline,
              draw_function := draw_opaque_outline, distance := distance }

/-- The volume queuer's entity loop for one view, producing the opaque and
transparent phase lists; `Except.error` models the in-loop `unwrap` panic
as in `queue_stencil_entities`. -/
def queue_volume_entities (inp : QueueInputs) (draw_opaque_outline : Nat)
    (draw_transparent_outline : Nat) (view_mask : RenderLayers)
    (view : ExtractedView) :
    List VolumeEntity →
      Except (List OpaqueOutline × List TransparentOutline)
        (List OpaqueOutline × List TransparentOutline)
  | [] => .ok ([], [])
  | e :: rest =>
    match volume_step inp draw_opaque_outline draw_transparent_outline
      view_mask view e with
    | .skip =>
      queue_volume_entities inp draw_opaque_outline draw_transparent_outline
        view_mask view rest
    | .abortRun => .error ([], [])
    | .addOpaque item =>
      match queue_volume_entities inp draw_opaque_outline
        draw_transparent_outline view_mask view rest with
      | .ok (os, ts) => .ok (item :: os, ts)
      | .error (os, ts) => .error (item :: os, ts)
    | .addTransparent item =>
      match queue_volume_entities inp draw_opaque_outline
        draw_transparent_outline view_mask view rest with
      | .ok (os, ts) => .ok (os, item :: ts)
      | .error (os, ts) => .error (os, item :: ts)

/-- `queue_outline_volume_mesh` (`draw.rs` lines 104-187) restricted to
one view: resolve the two draw functions (panic if either is
unregistered), build the base key, default the view mask, and run the
entity loop. -/
def queue_outline_volume_mesh (inp : QueueInputs) (view : ExtractedView)
    (view_mask : Option RenderLayers) (entities : List VolumeEntity) :
    Except (List OpaqueOutline × List TransparentOutline)
      (List OpaqueOutline × List TransparentOutline) :=
  match inp.opaque_draw_functions with
  | none => .error ([], [])
  | some draw_opaque_outline =>
    match inp.transparent_draw_functions with
    | none => .error ([], [])
    | some draw_transparent_outline =>
      queue_volume_entities inp draw_opaque_outline draw_transparent_outline
        (view_mask.getD RenderLayers.default) view entities

/-! Concrete sample data used to exercise the queuers on closed inputs. -/

/-- A sample resolved mesh. -/
def meshW : Mesh := { primitive_topology := 3, layout := 4 }

/-- Sample frame-global inputs: all draw functions registered, mesh handle
1 resolved, specialization always succeeding. -/
def inpW : QueueInputs :=
  { stencil_draw_functions := some 10, opaque_draw_functions := some 11,
    transparent_draw_functions := some 12, msaa_samples := 4,
    backend_is_gl := false,
    render_meshes := fun h => if h = 1 then some meshW else none,
    specialize := fun _ _ => some 5 }

/-- A sample view with a constant rangefinder. -/
def viewW : ExtractedView := { hdr := false, rangefinder3d := fun _ => F32.fin 7 }

/-- A sample world-space origin. -/
def originW : Vec3 := { x := F32.fin 0, y := F32.fin 0, z := F32.fin (-5) }

/-- A sample stencil entity on layer 0 with a valid depth mode. -/
def stencilEntityW : StencilEntity :=
  { entity := 42, mesh_handle := 1,
    stencil_uniform := { origin := originW, offset := F32.fin 0 },
    stencil_flags := { depth_mode := DepthMode.Flat },
    outline_mask := { mask := 1 } }

/-- A sample fragment uniform whose alpha component is the argument. -/
def fragW (alpha : F32) : OutlineFragmentUniform :=
  { colour := fun i => if i = 3 then alpha else F32.fin 1 }

/-- A sample volume entity on layer 0 with a valid depth mode and the
given fragment alpha. -/
def volumeEntityW (alpha : F32) : VolumeEntity :=
  { entity := 42, mesh_handle := 1,
    volume_uniform := { origin := originW, offset := F32.fin 0 },
    volume_flags := { depth_mode := DepthMode.Flat },
    fragment_uniform := fragW alpha,
    outline_mask := { mask := 1 } }

/-- Sample inputs with the draw-function registrations missing and a
failing specializer. -/
def inpFail : QueueInputs :=
  { inpW with
    stencil_draw_functions := none,
    opaque_draw_functions := none,
    transparent_draw_functions := none,
    specialize := fun _ _ => none }

/-- Sample inputs in which no mesh handle resolves. -/
def inpNoMesh : QueueInputs :=
  { inpW with render_meshes := fun _ => none }

/-! Helper lemmas about the loop bodies and the entity loops. -/

theorem stencil_step_skip_of_mask (inp : QueueInputs) (d : Nat)
    (vm : RenderLayers) (view : ExtractedView) (e : StencilEntity)
    (h : vm.intersects e.outline_mask = false) :
    stencil_step inp d vm view e = StencilStep.skip := by
  simp [stencil_step, h]

theorem stencil_step_skip_of_depth (inp : QueueInputs) (d : Nat)
    (vm : RenderLayers) (view : ExtractedView) (e : StencilEntity)
    (h : e.stencil_flags.depth_mode = DepthMode.Invalid) :
    stencil_step inp d vm view e = StencilStep.skip := by
  by_cases hm : vm.intersects e.outline_mask = false
  · simp [stencil_step, hm]
  · simp only [Bool.not_eq_false] at hm
    simp [stencil_step, hm, h]

theorem stencil_step_skip_of_mesh (inp : QueueInputs) (d : Nat)
    (vm : RenderLayers) (view : ExtractedView) (e : StencilEntity)
    (h : inp.render_meshes e.mesh_handle = none) :
    stencil_step inp d vm view e = StencilStep.skip := by
  by_cases hm : vm.intersects e.outline_mask = false
  · simp [stencil_step, hm]
  · simp only [Bool.not_eq_false] at hm
    by_cases hd : e.stencil_flags.depth_mode = DepthMode.Invalid
    · simp [stencil_step, hm, hd]
    · simp [stencil_step, hm, hd, h]

theorem stencil_step_add_of_pass (inp : QueueInputs) (d p : Nat)
    (vm : RenderLayers) (view : ExtractedView) (e : StencilEntity) (mesh : Mesh)
    (hmask : vm.intersects e.outline_mask = true)
    (hdepth : e.stencil_flags.depth_mode ≠ DepthMode.Invalid)
    (hmesh : inp.render_meshes e.mesh_handle = some mesh)
    (hspec : inp.specialize
      (stencil_entity_key (stencil_base_key inp) mesh e.stencil_flags
        e.stencil_uniform) mesh.layout = some p) :
    stencil_step inp d vm view e = StencilStep.add
      { entity := e.entity, pipeline := p, draw_function := d,
        distance := view.rangefinder3d
          (Mat4.from_translation e.stencil_uniform.origin) } := by
  simp [stencil_step, hmask, hdepth, hmesh, hspec]

theorem stencil_step_abort_of_fail (inp : QueueInputs) (d : Nat)
    (vm : RenderLayers) (view : ExtractedView) (e : StencilEntity) (mesh : Mesh)
    (hmask : vm.intersects e.outline_mask = true)
    (hdepth : e.stencil_flags.depth_mode ≠ DepthMode.Invalid)
    (hmesh : inp.render_meshes e.mesh_handle = some mesh)
    (hspec : inp.specialize
      (stencil_entity_key (stencil_base_key inp) mesh e.stencil_flags
        e.stencil_uniform) mesh.layout = none) :
    stencil_step inp d vm view e = StencilStep.abortRun := by
  simp [stencil_step, hmask, hdepth, hmesh, hspec]

theorem queue_stencil_cons_skip (inp : QueueInputs) (d : Nat)
    (vm : RenderLayers) (view : ExtractedView) (e : StencilEntity)
    (rest : List StencilEntity)
    (h : stencil_step inp d vm view e = StencilStep.skip) :
    queue_stencil_entities inp d vm view (e :: rest) =
      queue_stencil_entities inp d vm view rest := by
  simp [queue_stencil_entities, h]

theorem queue_stencil_cons_abort (inp : QueueInputs) (d : Nat)
    (vm : RenderLayers) (view : ExtractedView) (e : StencilEntity)
    (rest : List StencilEntity)
    (h : stencil_step inp d vm view e = StencilStep.abortRun) :
    queue_stencil_entities inp d vm view (e :: rest) = Except.error [] := by
  simp [queue_stencil_entities, h]

theorem queue_stencil_singleton_add (inp : QueueInputs) (d : Nat)
    (vm : RenderLayers) (view : ExtractedView) (e : StencilEntity)
    (item : StencilOutline)
    (h : stencil_step inp d vm view e = StencilStep.add item) :
    queue_stencil_entities inp d vm view [e] = Except.ok [item] := by
  simp [queue_stencil_entities, h]

theorem volume_step_skip_of_mask (inp : QueueInputs) (dOp dTr : Nat)
    (vm : RenderLayers) (view : ExtractedView) (e : VolumeEntity)
    (h : vm.intersects e.outline_mask = false) :
    volume_step inp dOp dTr vm view e = VolumeStep.skip := by
  simp [volume_step, h]

theorem volume_step_skip_of_depth (inp : QueueInputs) (dOp dTr : Nat)
    (vm : RenderLayers) (view : ExtractedView) (e : VolumeEntity)
    (h : e.volume_flags.depth_mode = DepthMode.Invalid) :
    volume_step inp dOp dTr vm view e = VolumeStep.skip := by
  by_cases hm : vm.intersects e.outline_mask = false
  · simp [volume_step, hm]
  · simp only [Bool.not_eq_false] at hm
    simp [volume_step, hm, h]

theorem volume_step_skip_of_mesh (inp : QueueInputs) (dOp dTr : Nat)
    (vm : RenderLayers) (view : ExtractedView) (e : VolumeEntity)
    (h : inp.render_meshes e.mesh_handle = none) :
    volume_step inp dOp dTr vm view e = VolumeStep.skip := by
  by_cases hm : vm.intersects e.outline_mask = false
  · simp [volume_step, hm]
  · simp only [Bool.not_eq_false] at hm
    by_cases hd : e.volume_flags.depth_mode = DepthMode.Invalid
    · simp [volume_step, hm, hd]
    · simp [volume_step, hm, hd, h]

theorem volume_step_transparent_of (inp : QueueInputs) (dOp dTr p : Nat)
    (vm : RenderLayers) (view : ExtractedView) (e : VolumeEntity) (mesh : Mesh)
    (hmask : vm.intersects e.outline_mask = true)
    (hdepth : e.volume_flags.depth_mode ≠ DepthMode.Invalid)
    (hmesh : inp.render_meshes e.mesh_handle = some mesh)
    (ht : volume_transparent e.fragment_uniform = true)
    (hspec : inp.specialize
      (volume_entity_key (volume_base_key inp) mesh e.volume_flags
        e.volume_uniform true view.hdr) mesh.layout = some p) :
    volume_step inp dOp dTr vm view e = VolumeStep.addTransparent
      { entity := e.entity, pipeline := p, draw_function := dTr,
        distance := view.rangefinder3d
          (Mat4.from_translation e.volume_uniform.origin) } := by
  simp [volume_step, hmask, hdepth, hmesh, ht, hspec]

theorem volume_step_opaque_of (inp : QueueInputs) (dOp dTr p : Nat)
    (vm : RenderLayers) (view : ExtractedView) (e : VolumeEntity) (mesh : Mesh)
    (hmask : vm.intersects e.outline_mask = true)
    (hdepth : e.volume_flags.depth_mode ≠ DepthMode.Invalid)
    (hmesh : inp.render_meshes e.mesh_handle = some mesh)
    (ht : volume_transparent e.fragment_uniform = false)
    (hspec : inp.specialize
      (volume_entity_key (volume_base_key inp) mesh e.volume_flags
        e.volume_uniform false view.hdr) mesh.layout = some p) :
    volume_step inp dOp dTr vm view e = VolumeStep.addOpaque
      { entity := e.entity, pipeline := p, draw_function := dOp,
        distance := view.rangefinder3d
          (Mat4.from_translation e.volume_uniform.origin) } := by
  simp [volume_step, hmask, hdepth, hmesh, ht, hspec]

theorem volume_step_abort_of_fail (inp : QueueInputs) (dOp dTr : Nat)
    (vm : RenderLayers) (view : ExtractedView) (e : VolumeEntity) (mesh : Mesh)
    (hmask : vm.intersects e.outline_mask = true)
    (hdepth : e.volume_flags.depth_mode ≠ DepthMode.Invalid)
    (hmesh : inp.render_meshes e.mesh_handle = some mesh)
    (hspec : inp.specialize
      (volume_entity_key (volume_base_key inp) mesh e.volume_flags
        e.volume_uniform (volume_transparent e.fragment_uniform) view.hdr)
      mesh.layout = none) :
    volume_step inp dOp dTr vm view e = VolumeStep.abortRun := by
  simp [volume_step, hmask, hdepth, hmesh, hspec]

theorem queue_volume_cons_skip (inp : QueueInputs) (dOp dTr : Nat)
    (vm : RenderLayers) (view : ExtractedView) (e : VolumeEntity)
    (rest : List VolumeEntity)
    (h : volume_step inp dOp dTr vm view e = VolumeStep.skip) :
    queue_volume_entities inp dOp dTr vm view (e :: rest) =
      queue_volume_entities inp dOp dTr vm view rest := by
  simp [queue_volume_entities, h]

theorem queue_volume_cons_abort (inp : QueueInputs) (dOp dTr : Nat)
    (vm : RenderLayers) (view : ExtractedView) (e : VolumeEntity)
    (rest : List VolumeEntity)
    (h : volume_step inp dOp dTr vm view e = VolumeStep.abortRun) :
    queue_volume_entities inp dOp dTr vm view (e :: rest) =
      Except.error ([], []) := by
  simp [queue_volume_entities, h]

theorem queue_volume_singleton_transparent (inp : QueueInputs) (dOp dTr : Nat)
    (vm : RenderLayers) (view : ExtractedView) (e : VolumeEntity)
    (item : TransparentOutline)
    (h : volume_step inp dOp dTr vm view e = VolumeStep.addTransparent item) :
    queue_volume_entities inp dOp dTr vm view [e] = Except.ok ([], [item]) := by
  simp [queue_volume_entities, h]

theorem queue_volume_singleton_opaque (inp : QueueInputs) (dOp dTr : Nat)
    (vm : RenderLayers) (view : ExtractedView) (e : VolumeEntity)
    (item : OpaqueOutline)
    (h : volume_step inp dOp dTr vm view e = VolumeStep.addOpaque item) :
    queue_volume_entities inp dOp dTr vm view [e] = Except.ok ([item], []) := by
  simp [queue_volume_entities, h]

theorem stencil_step_add_draw (inp : QueueInputs) (d : Nat)
    (vm : RenderLayers) (view : ExtractedView) (e : StencilEntity)
    (item : StencilOutline)
    (h : stencil_step inp d vm view e = StencilStep.add item) :
    item.draw_function = d := by
  simp only [stencil_step] at h
  split at h
  · exact StencilStep.noConfusion h
  · split at h
    · exact StencilStep.noConfusion h
    · split at h
      · exact StencilStep.noConfusion h
      · split at h
        · exact StencilStep.noConfusion h
        · cases h
          rfl

theorem volume_step_addOpaque_draw (inp : QueueInputs) (dOp dTr : Nat)
    (vm : RenderLayers) (view : ExtractedView) (e : VolumeEntity)
    (item : OpaqueOutline)
    (h : volume_step inp dOp dTr vm view e = VolumeStep.addOpaque item) :
    item.draw_function = dOp := by
  simp only [volume_step] at h
  split at h
  · exact VolumeStep.noConfusion h
  · split at h
    · exact VolumeStep.noConfusion h
    · split at h
      · exact VolumeStep.noConfusion h
      · split at h
        · exact VolumeStep.noConfusion h
        · split at h
          · exact VolumeStep.noConfusion h
          · cases h
            rfl

theorem volume_step_addTransparent_draw (inp : QueueInputs) (dOp dTr : Nat)
    (vm : RenderLayers) (view : ExtractedView) (e : VolumeEntity)
    (item : TransparentOutline)
    (h : volume_step inp dOp dTr vm view e = VolumeStep.addTransparent item) :
    item.draw_function = dTr := by
  simp only [volume_step] at h
  split at h
  · exact VolumeStep.noConfusion h
  · split at h
    · exact VolumeStep.noConfusion h
    · split at h
      · exact VolumeStep.noConfusion h
      · split at h
        · exact VolumeStep.noConfusion h
        · split at h
          · cases h
            rfl
          · exact VolumeStep.noConfusion h

theorem queue_stencil_ok_draw (inp : QueueInputs) (d : Nat)
    (vm : RenderLayers) (view : ExtractedView) (l : List StencilEntity) :
    ∀ items, queue_stencil_entities inp d vm view l = Except.ok items →
      ∀ it ∈ items, it.draw_function = d := by
  induction l with
  | nil =>
    intro items h it hit
    simp only [queue_stencil_entities, Except.ok.injEq] at h
    subst h
    cases hit
  | cons e rest ih =>
    intro items h it hit
    simp only [queue_stencil_entities] at h
    cases hstep : stencil_step inp d vm view e with
    | skip =>
      rw [hstep] at h
      exact ih items h it hit
    | abortRun =>
      rw [hstep] at h
      exact Except.noConfusion h
    | add item0 =>
      rw [hstep] at h
      cases hrest : queue_stencil_entities inp d vm view rest with
      | ok items0 =>
        rw [hrest] at h
        simp only [Except.ok.injEq] at h
        subst h
        rcases List.mem_cons.mp hit with h0 | h0
        · subst h0
          exact stencil_step_add_draw inp d vm view e it hstep
        · exact ih items0 hrest it h0
      | error items0 =>
        rw [hrest] at h
        exact Except.noConfusion h

theorem queue_volume_ok_draw (inp : QueueInputs) (dOp dTr : Nat)
    (vm : RenderLayers) (view : ExtractedView) (l : List VolumeEntity) :
    ∀ os ts, queue_volume_entities inp dOp dTr vm view l = Except.ok (os, ts) →
      (∀ it ∈ os, it.draw_function = dOp) ∧ (∀ it ∈ ts, it.draw_function = dTr) := by
  induction l with
  | nil =>
    intro os ts h
    simp only [queue_volume_entities, Except.ok.injEq, Prod.mk.injEq] at h
    obtain ⟨h1, h2⟩ := h
    subst h1
    subst h2
    exact ⟨fun it hit => absurd hit (List.not_mem_nil it),
           fun it hit => absurd hit (List.not_mem_nil it)⟩
  | cons e rest ih =>
    intro os ts h
    simp only [queue_volume_entities] at h
    cases hstep : volume_step inp dOp dTr vm view e with
    | skip =>
      rw [hstep] at h
      exact ih os ts h
    | abortRun =>
      rw [hstep] at h
      exact Except.noConfusion h
    | addOpaque item0 =>
      rw [hstep] at h
      cases hrest : queue_volume_entities inp dOp dTr vm view rest with
      | ok pr =>
        obtain ⟨os0, ts0⟩ := pr
        rw [hrest] at h
        simp only [Except.ok.injEq, Prod.mk.injEq] at h
        obtain ⟨h1, h2⟩ := h
        subst h1
        subst h2
        obtain ⟨iho, iht⟩ := ih os0 ts0 hrest
        refine ⟨fun it hit => ?_, iht⟩
        rcases List.mem_cons.mp hit with h0 | h0
        · subst h0
          exact volume_step_addOpaque_draw inp dOp dTr vm view e it hstep
        · exact iho it h0
      | error pr =>
        obtain ⟨os0, ts0⟩ := pr
        rw [hrest] at h
        exact Except.noConfusion h
    | addTransparent item0 =>
      rw [hstep] at h
      cases hrest : queue_volume_entities inp dOp dTr vm view rest with
      | ok pr =>
        obtain ⟨os0, ts0⟩ := pr
        rw [hrest] at h
        simp only [Except.ok.injEq, Prod.mk.injEq] at h
        obtain ⟨h1, h2⟩ := h
        subst h1
        subst h2
        obtain ⟨iho, iht⟩ := ih os0 ts0 hrest
        refine ⟨iho, fun it hit => ?_⟩
        rcases List.mem_cons.mp hit with h0 | h0
        · subst h0
          exact volume_step_addTransparent_draw inp dOp dTr vm view e it hstep
        · exact iht it h0
      | error pr =>
        obtain ⟨os0, ts0⟩ := pr
        rw [hrest] at h
        exact Except.noConfusion h

theorem queue_stencil_hdr_irrelevant (inp : QueueInputs) (d : Nat)
    (vm : RenderLayers) (view : ExtractedView) (h : Bool)
    (entities : List StencilEntity) :
    queue_stencil_entities inp d vm { view with hdr := h } entities =
      queue_stencil_entities inp d vm view entities := by
  induction entities with
  | nil => rfl
  | cons e rest ih =>
    have hs : stencil_step inp d vm { view with hdr := h } e =
        stencil_step inp d vm view e := rfl
    simp only [queue_stencil_entities, hs, ih]

/-! The claim theorems. -/

/-- C3: an entity whose flags carry depth mode `Invalid` produces no phase
entry in either the stencil queuer or the volume queuer, for any view and
any (possibly absent) view mask, regardless of its alpha or mesh state:
removing the entity from the query result leaves both queuers' output
unchanged, so the entity is skipped silently rather than treated as an
error. -/
theorem invalid_depth_mode_skipped
    (inp : QueueInputs) (view : ExtractedView) (vmO : Option RenderLayers)
    (es : StencilEntity) (ev : VolumeEntity)
    (restS : List StencilEntity) (restV : List VolumeEntity)
    (hs : es.stencil_flags.depth_mode = DepthMode.Invalid)
    (hv : ev.volume_flags.depth_mode = DepthMode.Invalid) :
    queue_outline_stencil_mesh inp view vmO (es :: restS) =
      queue_outline_stencil_mesh inp view vmO restS
    ∧ queue_outline_volume_mesh inp view vmO (ev :: restV) =
      queue_outline_volume_mesh inp view vmO restV := by
  constructor
  · simp only [queue_outline_stencil_mesh]
    cases inp.stencil_draw_functions with
    | none => rfl
    | some d =>
      exact queue_stencil_cons_skip _ _ _ _ _ _
        (stencil_step_skip_of_depth _ _ _ _ _ hs)
  · simp only [queue_outline_volume_mesh]
    cases inp.opaque_draw_functions with
    | none => rfl
    | some dOp =>
      cases inp.transparent_draw_functions with
      | none => rfl
      | some dTr =>
        exact queue_volume_cons_skip _ _ _ _ _ _ _
          (volume_step_skip_of_depth _ _ _ _ _ _ hv)

theorem invalid_depth_mode_skipped_witness :
    queue_outline_stencil_mesh inpW viewW none
      [{ stencilEntityW with stencil_flags := { depth_mode := DepthMode.Invalid } }] =
      queue_outline_stencil_mesh inpW viewW none []
    ∧ queue_outline_volume_mesh inpW viewW none
      [{ volumeEntityW (F32.fin 1) with
         volume_flags := { depth_mode := DepthMode.Invalid } }] =
      queue_outline_volume_mesh inpW viewW none [] :=
  invalid_depth_mode_skipped inpW viewW none
    { stencilEntityW with stencil_flags := { depth_mode := DepthMode.Invalid } }
    { volumeEntityW (F32.fin 1) with
      volume_flags := { depth_mode := DepthMode.Invalid } }
    [] [] rfl rfl

/-- C4: the specialization key for a queued entity is built from exactly
the spec's axes.  The stencil key is the record {current MSAA sample
count, pass type Stencil, mesh primitive topology, entity depth mode,
offset-is-zero, backend-workaround = (backend is GL)} with the HDR axis
left at its neutral default; the volume key is the same axes with pass
type chosen by the alpha classification and the view's HDR flag. -/
theorem specialization_key_axes (inp : QueueInputs) (mesh : Mesh)
    (sflags : OutlineStencilFlags) (sunif : OutlineStencilUniform)
    (vflags : OutlineVolumeFlags) (vunif : OutlineVolumeUniform)
    (frag : OutlineFragmentUniform) (view : ExtractedView) :
    stencil_entity_key (stencil_base_key inp) mesh sflags sunif =
      { msaa_samples := inp.msaa_samples, pass_type := PassType.Stencil,
        primitive_topology := mesh.primitive_topology,
        depth_mode := sflags.depth_mode,
        offset_zero := F32.beq sunif.offset (F32.fin 0),
        hdr_format := false, opengl_workaround := inp.backend_is_gl }
    ∧ volume_entity_key (volume_base_key inp) mesh vflags vunif
        (volume_transparent frag) view.hdr =
      { msaa_samples := inp.msaa_samples,
        pass_type := if volume_transparent frag then PassType.Transparent
          else PassType.Opaque,
        primitive_topology := mesh.primitive_topology,
        depth_mode := vflags.depth_mode,
        offset_zero := F32.beq vunif.offset (F32.fin 0),
        hdr_format := view.hdr, opengl_workaround := inp.backend_is_gl } :=
  ⟨rfl, rfl⟩

/-- C5: in both queuers the offset-is-zero axis of the key equals the
IEEE equality test of the uniform's offset scalar against 0.0, and that
test holds exactly when the offset is the finite value 0 — any other
scalar, however small a nonzero rational or NaN, leaves the flag unset.
No epsilon tolerance is involved. -/
theorem offset_zero_exact_equality :
    (∀ (base : PipelineKey) (mesh : Mesh) (flags : OutlineStencilFlags)
      (uniform : OutlineStencilUniform),
      (stencil_entity_key base mesh flags uniform).offset_zero =
        F32.beq uniform.offset (F32.fin 0))
    ∧ (∀ (base : PipelineKey) (mesh : Mesh) (flags : OutlineVolumeFlags)
      (uniform : OutlineVolumeUniform) (t h : Bool),
      (volume_entity_key base mesh flags uniform t h).offset_zero =
        F32.beq uniform.offset (F32.fin 0))
    ∧ (∀ x : F32, F32.beq x (F32.fin 0) = true ↔ x = F32.fin 0) := by
  refine ⟨fun base mesh flags uniform => rfl,
    fun base mesh flags uniform t h => rfl, fun x => ?_⟩
  cases x <;> simp [F32.beq]

theorem offset_zero_exact_equality_witness :
    F32.beq (F32.fin (1 / 1000000)) (F32.fin 0) = true ↔
      F32.fin (1 / 1000000) = F32.fin 0 :=
  offset_zero_exact_equality.2.2 (F32.fin (1 / 1000000))

/-- C10: the volume queuer's transparency classification is exactly the
IEEE comparison (alpha < 1.0) over all alpha values: every negative alpha
is transparent, every alpha above 1.0 is opaque, and NaN — for which the
comparison does not hold — is opaque, as are the infinite alphas on their
respective sides. -/
theorem transparency_is_lt_one_comparison :
    (∀ f : OutlineFragmentUniform,
      volume_transparent f = F32.lt (f.colour 3) (F32.fin 1))
    ∧ (∀ q : ℚ, q < 0 → F32.lt (F32.fin q) (F32.fin 1) = true)
    ∧ (∀ q : ℚ, 1 < q → F32.lt (F32.fin q) (F32.fin 1) = false)
    ∧ F32.lt F32.nan (F32.fin 1) = false
    ∧ F32.lt F32.neginf (F32.fin 1) = true
    ∧ F32.lt F32.inf (F32.fin 1) = false := by
  refine ⟨fun f => rfl, fun q hq => ?_, fun q hq => ?_, rfl, rfl, rfl⟩
  · simp only [F32.lt, decide_eq_true_eq]
    linarith
  · simp only [F32.lt, decide_eq_false_iff_not]
    linarith

theorem transparency_is_lt_one_comparison_witness :
    F32.lt (F32.fin (-1)) (F32.fin 1) = true
    ∧ F32.lt (F32.fin 2) (F32.fin 1) = false :=
  ⟨transparency_is_lt_one_comparison.2.1 (-1) (by norm_num),
   transparency_is_lt_one_comparison.2.2.1 2 (by norm_num)⟩

/-- C9: the stencil queuer's output — keys, resolved pipelines, entries —
is unchanged when only the view's HDR flag changes, because its key never
incorporates HDR; in the volume queuer the entity key records the HDR flag
verbatim, so two views differing only in HDR yield keys differing exactly
in the HDR axis (and hence unequal keys). -/
theorem stencil_key_hdr_independent (inp : QueueInputs)
    (view : ExtractedView) (h : Bool) :
    (∀ (vmO : Option RenderLayers) (entities : List StencilEntity),
      queue_outline_stencil_mesh inp { view with hdr := h } vmO entities =
        queue_outline_stencil_mesh inp view vmO entities)
    ∧ (∀ (base : PipelineKey) (mesh : Mesh) (flags : OutlineVolumeFlags)
        (uniform : OutlineVolumeUniform) (t h1 h2 : Bool),
      volume_entity_key base mesh flags uniform t h1 =
        { volume_entity_key base mesh flags uniform t h2 with hdr_format := h1 })
    ∧ (∀ (base : PipelineKey) (mesh : Mesh) (flags : OutlineVolumeFlags)
        (uniform : OutlineVolumeUniform) (t h1 h2 : Bool), h1 ≠ h2 →
      volume_entity_key base mesh flags uniform t h1 ≠
        volume_entity_key base mesh flags uniform t h2) := by
  refine ⟨fun vmO entities => ?_,
    fun base mesh flags uniform t h1 h2 => rfl,
    fun base mesh flags uniform t h1 h2 hne heq =>
      hne (congrArg PipelineKey.hdr_format heq)⟩
  simp only [queue_outline_stencil_mesh]
  cases inp.stencil_draw_functions with
  | none => rfl
  | some d => exact queue_stencil_hdr_irrelevant inp d _ view h entities

theorem stencil_key_hdr_independent_witness :
    volume_entity_key (volume_base_key inpW) meshW
      { depth_mode := DepthMode.Flat } { origin := originW, offset := F32.fin 0 }
      true true ≠
    volume_entity_key (volume_base_key inpW) meshW
      { depth_mode := DepthMode.Flat } { origin := originW, offset := F32.fin 0 }
      true false :=
  (stencil_key_hdr_independent inpW viewW true).2.2 (volume_base_key inpW)
    meshW { depth_mode := DepthMode.Flat }
    { origin := originW, offset := F32.fin 0 } true true false (by decide)

/-- C1: for a volume entity that passes the mask, depth-mode and mesh
checks (with the draw functions registered and specialization
succeeding), classification by fragment alpha is total: a finite alpha in
[0, 1.0) puts exactly one entry in the Transparent phase and none in the
Opaque phase, and a finite alpha ≥ 1.0 puts exactly one entry in the
Opaque phase and none in the Transparent phase — exactly one of the two
phases receives an entry for the entity, never both, never neither. -/
theorem volume_alpha_classification_total
    (inp : QueueInputs) (dOp dTr : Nat) (vm : RenderLayers)
    (view : ExtractedView) (e : VolumeEntity) (mesh : Mesh) (q : ℚ)
    (hop : inp.opaque_draw_functions = some dOp)
    (htr : inp.transparent_draw_functions = some dTr)
    (hmask : vm.intersects e.outline_mask = true)
    (hdepth : e.volume_flags.depth_mode ≠ DepthMode.Invalid)
    (hmesh : inp.render_meshes e.mesh_handle = some mesh)
    (hspec : ∀ k, (inp.specialize k mesh.layout).isSome = true)
    (halpha : e.fragment_uniform.colour 3 = F32.fin q) :
    (0 ≤ q → q < 1 → ∃ item, queue_outline_volume_mesh inp view (some vm) [e] =
      Except.ok ([], [item]) ∧ item.entity = e.entity)
    ∧ (1 ≤ q → ∃ item, queue_outline_volume_mesh inp view (some vm) [e] =
      Except.ok ([item], []) ∧ item.entity = e.entity) := by
  have hkey : ∀ b : Bool, ∃ p, inp.specialize
      (volume_entity_key (volume_base_key inp) mesh e.volume_flags
        e.volume_uniform b view.hdr) mesh.layout = some p :=
    fun b => Option.isSome_iff_exists.mp (hspec _)
  constructor
  · intro h0 h1
    have ht : volume_transparent e.fragment_uniform = true := by
      simp [volume_transparent, halpha, F32.lt, h1]
    obtain ⟨p, hp⟩ := hkey true
    refine ⟨{ entity := e.entity
              pipeline := p
              draw_function := dTr
              distance := view.rangefinder3d
                (Mat4.from_translation e.volume_uniform.origin) }, ?_, rfl⟩
    simp only [queue_outline_volume_mesh, hop, htr, Option.getD_some]
    exact queue_volume_singleton_transparent _ _ _ _ _ _ _
      (volume_step_transparent_of inp dOp dTr p vm view e mesh hmask hdepth
        hmesh ht hp)
  · intro h1
    have ht : volume_transparent e.fragment_uniform = false := by
      simp only [volume_transparent, halpha, F32.lt, decide_eq_false_iff_not]
      exact not_lt.mpr h1
    obtain ⟨p, hp⟩ := hkey false
    refine ⟨{ entity := e.entity
              pipeline := p
              draw_function := dOp
              distance := view.rangefinder3d
                (Mat4.from_translation e.volume_uniform.origin) }, ?_, rfl⟩
    simp only [queue_outline_volume_mesh, hop, htr, Option.getD_some]
    exact queue_volume_singleton_opaque _ _ _ _ _ _ _
      (volume_step_opaque_of inp dOp dTr p vm view e mesh hmask hdepth
        hmesh ht hp)

theorem volume_alpha_classification_total_witness :
    ∃ item, queue_outline_volume_mesh inpW viewW (some { mask := 1 })
      [volumeEntityW (F32.fin (1 / 2))] = Except.ok ([], [item])
      ∧ item.entity = (volumeEntityW (F32.fin (1 / 2))).entity :=
  (volume_alpha_classification_total inpW 11 12 { mask := 1 } viewW
    (volumeEntityW (F32.fin (1 / 2))) meshW (1 / 2) rfl rfl (by decide)
    (by decide) rfl (fun k => rfl) rfl).1 (by norm_num) (by norm_num)

/-- C2 (amended): in both queuers an entity whose outline mask does not
intersect the view's mask produces no phase entry for that (entity, view)
pair; when the view carries no `RenderLayers` component the default mask
matches everything (all 32 layers), so every entity mask with at least
one layer set within the 32-layer range intersects it — but an entity
whose mask is empty intersects nothing, so it is still skipped by the
mask check even for a maskless view. -/
theorem mask_check_skips_and_default_matches_nonempty
    (inp : QueueInputs) (dS dOp dTr : Nat) (vm : RenderLayers)
    (view : ExtractedView) :
    (∀ (e : StencilEntity) (rest : List StencilEntity),
      vm.intersects e.outline_mask = false →
      queue_stencil_entities inp dS vm view (e :: rest) =
        queue_stencil_entities inp dS vm view rest)
    ∧ (∀ (e : VolumeEntity) (rest : List VolumeEntity),
      vm.intersects e.outline_mask = false →
      queue_volume_entities inp dOp dTr vm view (e :: rest) =
        queue_volume_entities inp dOp dTr vm view rest)
    ∧ (∀ m : OutlineRenderLayers, m.mask ≠ 0 → m.mask < 2 ^ 32 →
      ((none : Option RenderLayers).getD RenderLayers.default).intersects m =
        true) := by
  refine ⟨fun e rest h => queue_stencil_cons_skip _ _ _ _ _ _
      (stencil_step_skip_of_mask _ _ _ _ _ h),
    fun e rest h => queue_volume_cons_skip _ _ _ _ _ _ _
      (volume_step_skip_of_mask _ _ _ _ _ _ h),
    fun m hne hlt => ?_⟩
  simp only [Option.getD_none, RenderLayers.intersects, RenderLayers.default,
    decide_eq_true_eq]
  rw [Nat.and_comm, Nat.and_pow_two_sub_one_eq_mod, Nat.mod_eq_of_lt hlt]
  exact hne

theorem mask_check_skips_and_default_matches_nonempty_witness :
    queue_stencil_entities inpW 10 { mask := 2 } viewW [stencilEntityW] =
      queue_stencil_entities inpW 10 { mask := 2 } viewW []
    ∧ ((none : Option RenderLayers).getD RenderLayers.default).intersects
      { mask := 1 } = true := by
  have h := mask_check_skips_and_default_matches_nonempty inpW 10 11 12
    { mask := 2 } viewW
  exact ⟨h.1 stencilEntityW [] (by decide),
    h.2.2 { mask := 1 } (by decide) (by decide)⟩

/-- C2 counterexample: the claim "if the view carries no RenderLayers
mask component ... every entity mask intersects it and no entity is
skipped by the mask check" fails at an entity whose outline mask is
empty: with no view mask, a depth-valid entity with a resolvable mesh and
empty mask intersects nothing — the match-all default included — and is
skipped, producing no entry. -/
theorem empty_mask_skipped_under_default_view_mask :
    RenderLayers.default.intersects { mask := 0 } = false
    ∧ queue_outline_stencil_mesh inpW viewW none
        [{ stencilEntityW with outline_mask := { mask := 0 } }] =
      Except.ok [] := by
  constructor
  · decide
  · rfl

/-- C6: an entity whose mesh-asset lookup does not resolve this frame
contributes zero phase entries in both queuers — removing it from the
query leaves the output unchanged, with no error value produced — and on
a later run whose lookup resolves (with intersecting mask, valid depth
mode and successful specialization) the stencil queuer produces exactly
one entry for it. -/
theorem unresolved_mesh_skipped_then_queued
    (inp inp2 : QueueInputs) (dS dOp dTr p : Nat) (vm : RenderLayers)
    (view : ExtractedView) (es : StencilEntity) (ev : VolumeEntity)
    (restS : List StencilEntity) (restV : List VolumeEntity) (mesh : Mesh)
    (hs : inp.render_meshes es.mesh_handle = none)
    (hv : inp.render_meshes ev.mesh_handle = none)
    (h2 : inp2.render_meshes es.mesh_handle = some mesh)
    (hmask : vm.intersects es.outline_mask = true)
    (hdepth : es.stencil_flags.depth_mode ≠ DepthMode.Invalid)
    (hspec : inp2.specialize (stencil_entity_key (stencil_base_key inp2) mesh
      es.stencil_flags es.stencil_uniform) mesh.layout = some p) :
    queue_stencil_entities inp dS vm view (es :: restS) =
      queue_stencil_entities inp dS vm view restS
    ∧ queue_volume_entities inp dOp dTr vm view (ev :: restV) =
      queue_volume_entities inp dOp dTr vm view restV
    ∧ queue_stencil_entities inp2 dS vm view [es] = Except.ok
      [{ entity := es.entity, pipeline := p, draw_function := dS,
         distance := view.rangefinder3d
           (Mat4.from_translation es.stencil_uniform.origin) }] :=
  ⟨queue_stencil_cons_skip _ _ _ _ _ _
      (stencil_step_skip_of_mesh _ _ _ _ _ hs),
   queue_volume_cons_skip _ _ _ _ _ _ _
      (volume_step_skip_of_mesh _ _ _ _ _ _ hv),
   queue_stencil_singleton_add _ _ _ _ _ _
      (stencil_step_add_of_pass inp2 dS p vm view es mesh hmask hdepth h2
        hspec)⟩

theorem unresolved_mesh_skipped_then_queued_witness :
    queue_stencil_entities inpNoMesh 10 { mask := 1 } viewW [stencilEntityW] =
      queue_stencil_entities inpNoMesh 10 { mask := 1 } viewW []
    ∧ queue_stencil_entities inpW 10 { mask := 1 } viewW [stencilEntityW] =
      Except.ok
        [{ entity := 42, pipeline := 5, draw_function := 10,
           distance := F32.fin 7 }] := by
  have h := unresolved_mesh_skipped_then_queued inpNoMesh inpW 10 11 12 5
    { mask := 1 } viewW stencilEntityW (volumeEntityW (F32.fin 1)) [] []
    meshW rfl rfl rfl (by decide) (by decide) rfl
  exact ⟨h.1, h.2.2⟩

/-- C7: a missing draw-function registration makes the queuer abort
before touching any entity (empty error output), and a pipeline
specialization failure on an entity that passed all filters aborts the
run at that entity: no entry for it, and no entries from any later entity
in the iteration — there is no fallback path that appends entries after
the failure. -/
theorem draw_function_and_specialize_failures_abort
    (inp : QueueInputs) (dS dOp dTr : Nat) (vmO : Option RenderLayers)
    (vm : RenderLayers) (view : ExtractedView)
    (es : StencilEntity) (ev : VolumeEntity) (mesh meshv : Mesh)
    (restS : List StencilEntity) (restV : List VolumeEntity) :
    (inp.stencil_draw_functions = none →
      queue_outline_stencil_mesh inp view vmO restS = Except.error [])
    ∧ (inp.opaque_draw_functions = none ∨
        inp.transparent_draw_functions = none →
      queue_outline_volume_mesh inp view vmO restV = Except.error ([], []))
    ∧ (vm.intersects es.outline_mask = true →
      es.stencil_flags.depth_mode ≠ DepthMode.Invalid →
      inp.render_meshes es.mesh_handle = some mesh →
      inp.specialize (stencil_entity_key (stencil_base_key inp) mesh
        es.stencil_flags es.stencil_uniform) mesh.layout = none →
      queue_stencil_entities inp dS vm view (es :: restS) = Except.error [])
    ∧ (vm.intersects ev.outline_mask = true →
      ev.volume_flags.depth_mode ≠ DepthMode.Invalid →
      inp.render_meshes ev.mesh_handle = some meshv →
      inp.specialize (volume_entity_key (volume_base_key inp) meshv
        ev.volume_flags ev.volume_uniform
        (volume_transparent ev.fragment_uniform) view.hdr) meshv.layout =
        none →
      queue_volume_entities inp dOp dTr vm view (ev :: restV) =
        Except.error ([], [])) := by
  refine ⟨fun h => ?_, fun h => ?_, fun h1 h2 h3 h4 => ?_,
    fun h1 h2 h3 h4 => ?_⟩
  · simp [queue_outline_stencil_mesh, h]
  · rcases h with h | h
    · simp [queue_outline_volume_mesh, h]
    · simp only [queue_outline_volume_mesh]
      cases inp.opaque_draw_functions with
      | none => rfl
      | some d => simp [h]
  · exact queue_stencil_cons_abort _ _ _ _ _ _
      (stencil_step_abort_of_fail _ _ _ _ _ _ h1 h2 h3 h4)
  · exact queue_volume_cons_abort _ _ _ _ _ _ _
      (volume_step_abort_of_fail _ _ _ _ _ _ _ h1 h2 h3 h4)

theorem draw_function_and_specialize_failures_abort_witness :
    queue_outline_stencil_mesh inpFail viewW none [] = Except.error []
    ∧ queue_stencil_entities inpFail 10 { mask := 1 } viewW
      [stencilEntityW] = Except.error [] := by
  have h := draw_function_and_specialize_failures_abort inpFail 10 11 12
    none { mask := 1 } viewW stencilEntityW (volumeEntityW (F32.fin 1))
    meshW meshW [] []
  exact ⟨h.1 rfl, h.2.2.1 (by decide) (by decide) rfl rfl⟩

/-- C8: every appended phase entry consists of the entity's identifier,
the pipeline identifier the specializer resolved for the refined key and
mesh layout, the queuer's draw-function identifier, and a sort distance
equal to the view's rangefinder applied to the uniform's world-space
origin as a translation transform; moreover, across a whole run every
stencil entry carries the single stencil draw-function id, every opaque
entry the opaque id and every transparent entry the transparent id — the
ids resolved once per frame per queuer, not per entity. -/
theorem phase_entry_contents
    (inp : QueueInputs) (dS dOp dTr p pv : Nat) (vm : RenderLayers)
    (view : ExtractedView) (e : StencilEntity) (ev : VolumeEntity)
    (mesh meshv : Mesh)
    (hmask : vm.intersects e.outline_mask = true)
    (hdepth : e.stencil_flags.depth_mode ≠ DepthMode.Invalid)
    (hmesh : inp.render_meshes e.mesh_handle = some mesh)
    (hspec : inp.specialize (stencil_entity_key (stencil_base_key inp) mesh
      e.stencil_flags e.stencil_uniform) mesh.layout = some p)
    (hmaskv : vm.intersects ev.outline_mask = true)
    (hdepthv : ev.volume_flags.depth_mode ≠ DepthMode.Invalid)
    (hmeshv : inp.render_meshes ev.mesh_handle = some meshv)
    (hspecv : inp.specialize (volume_entity_key (volume_base_key inp) meshv
      ev.volume_flags ev.volume_uniform
      (volume_transparent ev.fragment_uniform) view.hdr) meshv.layout =
      some pv) :
    queue_stencil_entities inp dS vm view [e] = Except.ok
      [{ entity := e.entity, pipeline := p, draw_function := dS,
         distance := view.rangefinder3d
           (Mat4.from_translation e.stencil_uniform.origin) }]
    ∧ queue_volume_entities inp dOp dTr vm view [ev] =
      (if volume_transparent ev.fragment_uniform then
        Except.ok ([],
          [{ entity := ev.entity, pipeline := pv, draw_function := dTr,
             distance := view.rangefinder3d
               (Mat4.from_translation ev.volume_uniform.origin) }])
      else
        Except.ok
          ([{ entity := ev.entity, pipeline := pv, draw_function := dOp,
              distance := view.rangefinder3d
                (Mat4.from_translation ev.volume_uniform.origin) }], []))
    ∧ (∀ l items, queue_stencil_entities inp dS vm view l = Except.ok items →
        ∀ it ∈ items, it.draw_function = dS)
    ∧ (∀ l os ts,
        queue_volume_entities inp dOp dTr vm view l = Except.ok (os, ts) →
        (∀ it ∈ os, it.draw_function = dOp) ∧
        (∀ it ∈ ts, it.draw_function = dTr)) := by
  refine ⟨queue_stencil_singleton_add _ _ _ _ _ _
      (stencil_step_add_of_pass _ _ _ _ _ _ _ hmask hdepth hmesh hspec),
    ?_, fun l => queue_stencil_ok_draw inp dS vm view l,
    fun l => queue_volume_ok_draw inp dOp dTr vm view l⟩
  cases ht : volume_transparent ev.fragment_uniform with
  | true =>
    rw [ht] at hspecv
    simp only [if_pos]
    exact queue_volume_singleton_transparent _ _ _ _ _ _ _
      (volume_step_transparent_of inp dOp dTr pv vm view ev meshv hmaskv
        hdepthv hmeshv ht hspecv)
  | false =>
    rw [ht] at hspecv
    simp only [Bool.false_eq_true, if_false]
    exact queue_volume_singleton_opaque _ _ _ _ _ _ _
      (volume_step_opaque_of inp dOp dTr pv vm view ev meshv hmaskv
        hdepthv hmeshv ht hspecv)

theorem phase_entry_contents_witness :
    queue_stencil_entities inpW 10 { mask := 1 } viewW [stencilEntityW] =
      Except.ok
        [{ entity := 42, pipeline := 5, draw_function := 10,
           distance := F32.fin 7 }]
    ∧ queue_volume_entities inpW 11 12 { mask := 1 } viewW
      [volumeEntityW (F32.fin 1)] =
      Except.ok
        ([{ entity := 42, pipeline := 5, draw_function := 11,
            distance := F32.fin 7 }], []) := by
  have h := phase_entry_contents inpW 10 11 12 5 5 { mask := 1 } viewW
    stencilEntityW (volumeEntityW (F32.fin 1)) meshW meshW
    (by decide) (by decide) rfl rfl (by decide) (by decide) rfl rfl
  exact ⟨h.1, h.2.1⟩

end BevyModOutline
